import Mathlib

/-!
Verification development for the MetroMind repository.

Two components are embedded:

* `src/phase5_clean.py` — the batch Robust Aggregator / Outlier Classifier
  (`build_clean_and_stats`): deriving time buckets from each segment's arrival
  timestamp, hard-bounds filtering, per-group ranked median / MAD / percentile
  statistics, and modified-z-score outlier flagging.

* `src/collector/collector.py` — the Observation Normalizer (`extract_fields`,
  `unwrap`, `parse_iso8601`) and the per-vehicle Segment Tracker
  (`handle_observation`).

Numeric conventions: SQL REAL / Python float arithmetic is embedded as exact
rational arithmetic over `ℚ`; SQLite INTEGER columns are `ℤ`.  ISO-8601 TEXT
timestamps stored in the database are embedded structurally (see `Civil` and
the comments on `VehicleState`).
-/

namespace MetroMind

/-! ### Civil timestamps

`segments.arrive_time_utc` / `depart_time_utc` are TEXT columns holding
ISO-8601 UTC instants.  `phase5_clean.py` only ever inspects them through
`strftime('%w', ...)` (day of week, 0 = Sunday) and `strftime('%H', ...)`
(hour of day), so the TEXT value is embedded as the civil UTC fields it
denotes. -/

structure Civil where
  y : ℕ
  mo : ℕ
  d : ℕ
  hh : ℕ
  mi : ℕ
  ss : ℕ
deriving DecidableEq, Repr

/-- Days since 1970-01-01 of a civil date (proleptic Gregorian calendar;
the standard era-based algorithm, valid for `y ≥ 1`). -/
def daysFromCivil (y mo d : ℕ) : ℤ :=
  let y' := if mo ≤ 2 then y - 1 else y
  let era := y' / 400
  let yoe := y' % 400
  let mp := (mo + 9) % 12
  let doy := (153 * mp + 2) / 5 + d - 1
  let doe := yoe * 365 + yoe / 4 - yoe / 100 + doy
  (era * 146097 + doe : ℤ) - 719468

/-- SQLite `strftime('%w', t)`: day of week with 0 = Sunday .. 6 = Saturday
(1970-01-01 was a Thursday, hence the offset 4). -/
def sqliteDow (c : Civil) : ℕ :=
  ((daysFromCivil c.y c.mo c.d + 4) % 7).toNat

/-- The `UPDATE segments_work SET day_of_week = CASE WHEN sqlite_dow = 0 THEN 6
ELSE sqlite_dow - 1 END` conversion: 0 = Monday .. 6 = Sunday. -/
def mondayDow (w : ℕ) : ℕ :=
  if w = 0 then 6 else w - 1

/-- The `CASE day_of_week WHEN 0 THEN 'Mon' ... END` table.  The SQL `CASE`
has no `ELSE` arm (NULL); that arm is unreachable because `day_of_week`
is always in `0..6`, and is embedded as the empty string. -/
def dayName : ℕ → String
  | 0 => "Mon"
  | 1 => "Tue"
  | 2 => "Wed"
  | 3 => "Thu"
  | 4 => "Fri"
  | 5 => "Sat"
  | 6 => "Sun"
  | _ => ""

/-- `printf('%02d', h)` for `h ≤ 99`. -/
def pad2 (n : ℕ) : String :=
  if n < 10 then "0" ++ toString n else toString n

/-! ### The raw `segments` table and the working tables -/

/-- One row of the raw `segments` table (the columns `phase5_clean.py` reads).
Nullable TEXT columns are `Option String`; `travel_time_seconds` is read
through `WHERE travel_time_seconds IS NOT NULL`, hence `Option ℤ`. -/
structure SegmentRow where
  id : ℤ
  route_id : Option String
  direction_id : Option String
  vehicle_ref : Option String
  trip_id : Option String
  from_stop_id : String
  to_stop_id : String
  depart_time_utc : Civil
  arrive_time_utc : Civil
  travel_time_seconds : Option ℤ
deriving DecidableEq, Repr

/-- One row of the temp table `segments_work` (with the derived
`day_of_week`, `hour_of_day`, `time_bucket` columns). -/
structure WorkRow where
  id : ℤ
  route_id : String
  direction_id : String
  vehicle_ref : String
  trip_id : String
  from_stop_id : String
  to_stop_id : String
  depart_time_utc : Civil
  arrive_time_utc : Civil
  x : ℤ
  day_of_week : ℕ
  hour_of_day : ℕ
  time_bucket : String
deriving DecidableEq, Repr

/-- `CREATE TEMP TABLE segments_work AS SELECT ... WHERE travel_time_seconds
IS NOT NULL` plus the two `UPDATE`s deriving `day_of_week` and `time_bucket`. -/
def toWork (s : SegmentRow) : Option WorkRow :=
  s.travel_time_seconds.map fun t =>
    let dow := mondayDow (sqliteDow s.arrive_time_utc)
    let hour := s.arrive_time_utc.hh
    { id := s.id
      route_id := s.route_id.getD ""
      direction_id := s.direction_id.getD ""
      vehicle_ref := s.vehicle_ref.getD ""
      trip_id := s.trip_id.getD ""
      from_stop_id := s.from_stop_id
      to_stop_id := s.to_stop_id
      depart_time_utc := s.depart_time_utc
      arrive_time_utc := s.arrive_time_utc
      x := t
      day_of_week := dow
      hour_of_day := hour
      time_bucket := dayName dow ++ "-" ++ pad2 hour }

/-- `CREATE TEMP TABLE segments_work2 AS SELECT * FROM segments_work WHERE
travel_time_seconds BETWEEN MIN_SECONDS AND MAX_SECONDS` (`BETWEEN` is
inclusive).  `minS`/`maxS` are the `PHASE5_MIN_SECONDS`/`PHASE5_MAX_SECONDS`
configuration values (defaults 10 and 1800). -/
def segments_work2 (minS maxS : ℤ) (segs : List SegmentRow) : List WorkRow :=
  (segs.filterMap toWork).filter fun w => decide (minS ≤ w.x) && decide (w.x ≤ maxS)

/-- The grouping key of the stats query: the `GROUP BY route_id, direction_id,
from_stop_id, to_stop_id, day_of_week, hour_of_day` columns. -/
structure GroupKey where
  route_id : String
  direction_id : String
  from_stop_id : String
  to_stop_id : String
  day_of_week : ℕ
  hour_of_day : ℕ
deriving DecidableEq, Repr

def keyOf (w : WorkRow) : GroupKey :=
  { route_id := w.route_id
    direction_id := w.direction_id
    from_stop_id := w.from_stop_id
    to_stop_id := w.to_stop_id
    day_of_week := w.day_of_week
    hour_of_day := w.hour_of_day }

/-- The multiset of `travel_time_seconds` values of one group (the `base` CTE
restricted to one key), as rationals since the statistics are SQL REALs. -/
def groupVals (rows : List WorkRow) (k : GroupKey) : List ℚ :=
  (rows.filter fun w => decide (keyOf w = k)).map fun w => (w.x : ℚ)

/-- `ROW_NUMBER() OVER (... ORDER BY x)` followed by
`AVG(x) ... WHERE rn IN ((n + 1) / 2, (n + 2) / 2)` — the `med` (and,
applied to deviations, `mad`) CTE.  SQLite `/` on integers truncates, so the
two ranks are the floor ranks `⌊(n+1)/2⌋` and `⌊(n+2)/2⌋` (1-based).  When
the two ranks coincide the `IN` set selects a single row and `AVG` returns
its value, which equals `(a + a) / 2`. -/
def sqlMedian (l : List ℚ) : ℚ :=
  let s := List.insertionSort (· ≤ ·) l
  let n := l.length
  (s.getD ((n + 1) / 2 - 1) 0 + s.getD ((n + 2) / 2 - 1) 0) / 2

/-- `MAX(CASE WHEN rn = k THEN x END)` over one group: the value at 1-based
rank `k` of the ascending ordering, NULL (`Option.none`) when no row has that
rank. -/
def sqlRankValue (l : List ℚ) (k : ℕ) : Option ℚ :=
  if 1 ≤ k ∧ k ≤ l.length then some ((List.insertionSort (· ≤ ·) l).getD (k - 1) 0)
  else Option.none

/-- `CAST(CEIL(n * 0.10) AS INTEGER)` — the 1-based nearest rank of the 10th
percentile. -/
def p10Rank (n : ℕ) : ℕ :=
  (Int.ceil ((n : ℚ) * (10 / 100))).toNat

/-- `CAST(CEIL(n * 0.90) AS INTEGER)` — the 1-based nearest rank of the 90th
percentile. -/
def p90Rank (n : ℕ) : ℕ :=
  (Int.ceil ((n : ℚ) * (90 / 100))).toNat

/-- One row of the `segment_stats` table.  `mad_seconds` is `Option` because
the `mad` CTE is attached by `LEFT JOIN`; likewise `p10`/`p90` come from
rank lookups that yield NULL when the rank matches no row. -/
structure StatsRow where
  key : GroupKey
  time_bucket : String
  sample_count : ℕ
  median_seconds : ℚ
  mad_seconds : Option ℚ
  p10_seconds : Option ℚ
  p90_seconds : Option ℚ
deriving DecidableEq, Repr

/-- The stats computed for one group (`counts` joined with `med`, `mad`,
`pcts` for a single key whose value multiset is `vals`). -/
def groupStats (k : GroupKey) (vals : List ℚ) : StatsRow :=
  let n := vals.length
  let med := sqlMedian vals
  let devs := vals.map fun x => |x - med|
  { key := k
    time_bucket := dayName k.day_of_week ++ "-" ++ pad2 k.hour_of_day
    sample_count := n
    median_seconds := med
    mad_seconds := if n = 0 then Option.none else some (sqlMedian devs)
    p10_seconds := sqlRankValue vals (p10Rank n)
    p90_seconds := sqlRankValue vals (p90Rank n) }

/-- The `INSERT OR REPLACE INTO segment_stats ...` query: one row per
distinct group key of the bounds-filtered working set. -/
def segment_stats (minS maxS : ℤ) (segs : List SegmentRow) : List StatsRow :=
  let rows := segments_work2 minS maxS segs
  ((rows.map keyOf).dedup).map fun k => groupStats k (groupVals rows k)

/-- The value multiset of the group of key `k` in the bounds-filtered
working set (abbreviation for statements). -/
def valsOfKey (minS maxS : ℤ) (segs : List SegmentRow) (k : GroupKey) : List ℚ :=
  groupVals (segments_work2 minS maxS segs) k

/-- The stats row the aggregator computes for the group of key `k`
(abbreviation for statements). -/
def statsOfKey (minS maxS : ℤ) (segs : List SegmentRow) (k : GroupKey) : StatsRow :=
  groupStats k (valsOfKey minS maxS segs k)

/-- The outlier `CASE`: `WHEN s.mad_seconds IS NULL OR s.mad_seconds = 0 THEN 0
WHEN ABS(0.6745 * (x - median) / mad) > MAD_Z_CUTOFF THEN 1 ELSE 0`.
`cutoff` is the `PHASE5_MAD_Z_CUTOFF` configuration value (default 6). -/
def isOutlierFlag (cutoff : ℚ) (x : ℚ) (st : StatsRow) : Bool :=
  match st.mad_seconds with
  | Option.none => false
  | some m =>
      if m = 0 then false
      else decide (|(6745 / 10000 : ℚ) * (x - st.median_seconds) / m| > cutoff)

/-- One row of the `segments_clean` table. -/
structure CleanRow where
  id : ℤ
  route_id : String
  direction_id : String
  vehicle_ref : String
  trip_id : String
  from_stop_id : String
  to_stop_id : String
  depart_time_utc : Civil
  arrive_time_utc : Civil
  travel_time_seconds : ℤ
  day_of_week : ℕ
  hour_of_day : ℕ
  time_bucket : String
  is_outlier : Bool
deriving DecidableEq, Repr

/-- The cleaned row built from one working row and its group's stats row. -/
def cleanRowOf (cutoff : ℚ) (w : WorkRow) (st : StatsRow) : CleanRow :=
  { id := w.id
    route_id := w.route_id
    direction_id := w.direction_id
    vehicle_ref := w.vehicle_ref
    trip_id := w.trip_id
    from_stop_id := w.from_stop_id
    to_stop_id := w.to_stop_id
    depart_time_utc := w.depart_time_utc
    arrive_time_utc := w.arrive_time_utc
    travel_time_seconds := w.x
    day_of_week := w.day_of_week
    hour_of_day := w.hour_of_day
    time_bucket := w.time_bucket
    is_outlier := isOutlierFlag cutoff (w.x : ℚ) st }

/-- The `INSERT INTO segments_clean ... FROM segments_work2 w JOIN
segment_stats s ON (six key columns)` query.  The stats keys are distinct, so
the inner join contributes at most one stats row per working row; a working
row with no matching stats row joins nothing and is dropped. -/
def segments_clean (minS maxS : ℤ) (cutoff : ℚ) (segs : List SegmentRow) : List CleanRow :=
  let rows := segments_work2 minS maxS segs
  let stats := segment_stats minS maxS segs
  rows.filterMap fun w =>
    (stats.find? fun st => decide (st.key = keyOf w)).map fun st => cleanRowOf cutoff w st

/-- The three durable relations `build_clean_and_stats` touches. -/
structure DBState where
  segments : List SegmentRow
  segment_stats_tbl : List StatsRow
  segments_clean_tbl : List CleanRow
deriving DecidableEq, Repr

/-- `build_clean_and_stats`: reads only the raw `segments` table, and fully
replaces (`DELETE FROM` + `INSERT`) both derived tables. -/
def build_clean_and_stats (minS maxS : ℤ) (cutoff : ℚ) (db : DBState) : DBState :=
  { segments := db.segments
    segment_stats_tbl := segment_stats minS maxS db.segments
    segments_clean_tbl := segments_clean minS maxS cutoff db.segments }

/-! ### Reference (spec-side) statistics, for comparison -/

/-- The textbook median: middle value for odd `n`, mean of the two middle
values for even `n`. -/
def stdMedian (l : List ℚ) : ℚ :=
  let s := List.insertionSort (· ≤ ·) l
  let n := l.length
  if n % 2 = 1 then s.getD (n / 2) 0
  else (s.getD (n / 2 - 1) 0 + s.getD (n / 2) 0) / 2

/-- The textbook median absolute deviation from the median. -/
def stdMAD (l : List ℚ) : ℚ :=
  stdMedian (l.map fun x => |x - stdMedian l|)

/-- Modelled from the spec's words, for comparison with `sqlMedian`: "average
of the value(s) at rank `⌈(n+1)/2⌉` and `⌈(n+2)/2⌉`" with `⌈·⌉` the real
ceiling (the reading the spec itself uses for the percentile ranks
`⌈n·0.10⌉`).  The average is taken over the values at whichever of the two
ranks exist (1-based). -/
def specCeilRankMedian (l : List ℚ) : ℚ :=
  let s := List.insertionSort (· ≤ ·) l
  let n := l.length
  let r1 := (Int.ceil (((n : ℚ) + 1) / 2)).toNat
  let r2 := (Int.ceil (((n : ℚ) + 2) / 2)).toNat
  let picked := ((List.range n).filter fun i => decide (i + 1 = r1 ∨ i + 1 = r2)).map
    fun i => s.getD i 0
  picked.sum / picked.length

/-! ### Collector: Python value model

`extract_fields` receives arbitrary decoded-JSON values, so the embedding
models Python scalars and containers.  `Val.none` is Python `None`; a key
missing from a dict reads as `None` through `dict.get`. -/

inductive Val where
  | none : Val
  | str : String → Val
  | int : ℤ → Val
  | dict : List (String × Val) → Val
  | list : List Val → Val

/-- Python truthiness of the modelled values: `None`, `""`, `0`, `{}`, `[]`
are falsy. -/
def truthy : Val → Bool
  | Val.none => false
  | Val.str s => !(s == "")
  | Val.int n => !(n == 0)
  | Val.dict es => !es.isEmpty
  | Val.list es => !es.isEmpty

/-- `d.get(k)` on a dict with entries `es` (default `None`).  JSON dicts have
distinct keys; lookup returns the first match. -/
def dictGet (es : List (String × Val)) (k : String) : Val :=
  (es.lookup k).getD Val.none

/-- Python `a or b` specialised to the places the collector uses it. -/
def pyOr (a b : Val) : Val :=
  if truthy a then a else b

/-- Python `a or b` for the tracker's string-valued metadata fallbacks
(`prev.get("route_id", route_id) or route_id` etc.). -/
def pyOrS (a b : String) : String :=
  if a = "" then b else a

/-- `str(v)`.  Python's textual repr of containers is irrelevant to every
claim (only `str` of scalars reaches an emitted observation along a path a
claim mentions), so it is abbreviated for containers. -/
def pyStr : Val → String
  | Val.none => "None"
  | Val.str s => s
  | Val.int n => toString n
  | Val.dict _ => "<dict>"
  | Val.list _ => "<list>"

/-- `unwrap`: normalize fields that may appear as `{'value': ...}`: a dict
with a `value` key yields that entry, a single-entry dict yields its sole
value, any other dict yields `None`; non-dicts pass through. -/
def unwrap (v : Val) : Val :=
  match v with
  | Val.none => Val.none
  | Val.dict es =>
      if (es.lookup "value").isSome then (es.lookup "value").getD Val.none
      else if es.length = 1 then ((es.head?).map Prod.snd).getD Val.none
      else Val.none
  | v => v

/-! ### Collector: ISO-8601 parsing (`parse_iso8601`)

`datetime.fromisoformat` (the CPython grammar: `YYYY-MM-DD` optionally
followed by one separator character and `HH[:MM[:SS[.fff[fff]]]]`, optionally
followed by a UTC offset `±HH:MM[:SS[.ffffff]]`), applied after replacing a
literal `Z` designator by `+00:00`. -/

structure PyDateTime where
  year : ℕ
  month : ℕ
  day : ℕ
  hour : ℕ
  minute : ℕ
  second : ℕ
  microsecond : ℕ
  /-- UTC offset in whole seconds; `Option.none` is a naive datetime.  (A
  fractional-second component of the *offset* — allowed by the grammar but
  inspected by no claim — is dropped here.) -/
  utcOffsetSeconds : Option ℤ
deriving DecidableEq, Repr

def digitVal (c : Char) : Option ℕ :=
  if c.isDigit then some (c.toNat - 48) else Option.none

/-- Read a fixed run of decimal digits (fails on any non-digit). -/
def readNat (cs : List Char) : Option ℕ :=
  cs.foldl (fun acc c => acc.bind fun a => (digitVal c).map fun d => a * 10 + d) (some 0)

def isLeap (y : ℕ) : Bool :=
  y % 4 = 0 && (y % 100 ≠ 0 || y % 400 = 0)

def daysInMonth (y m : ℕ) : ℕ :=
  if m = 2 then (if isLeap y then 29 else 28)
  else if m = 4 ∨ m = 6 ∨ m = 9 ∨ m = 11 then 30
  else 31

structure TimeParts where
  hh : ℕ
  mi : ℕ
  ss : ℕ
  us : ℕ
deriving DecidableEq, Repr

/-- The `HH[:MM[:SS[.fff[fff]]]]` shapes accepted by
`datetime.fromisoformat`'s time parser, with range validation. -/
def parseTimeChars (cs : List Char) : Option TimeParts :=
  (match cs with
  | [h1, h2] =>
      (readNat [h1, h2]).map fun h => TimeParts.mk h 0 0 0
  | [h1, h2, ':', m1, m2] =>
      (readNat [h1, h2]).bind fun h =>
        (readNat [m1, m2]).map fun m => TimeParts.mk h m 0 0
  | [h1, h2, ':', m1, m2, ':', s1, s2] =>
      (readNat [h1, h2]).bind fun h =>
        (readNat [m1, m2]).bind fun m =>
          (readNat [s1, s2]).map fun s => TimeParts.mk h m s 0
  | [h1, h2, ':', m1, m2, ':', s1, s2, '.', f1, f2, f3] =>
      (readNat [h1, h2]).bind fun h =>
        (readNat [m1, m2]).bind fun m =>
          (readNat [s1, s2]).bind fun s =>
            (readNat [f1, f2, f3]).map fun f => TimeParts.mk h m s (f * 1000)
  | [h1, h2, ':', m1, m2, ':', s1, s2, '.', f1, f2, f3, f4, f5, f6] =>
      (readNat [h1, h2]).bind fun h =>
        (readNat [m1, m2]).bind fun m =>
          (readNat [s1, s2]).bind fun s =>
            (readNat [f1, f2, f3, f4, f5, f6]).map fun f => TimeParts.mk h m s f
  | _ => Option.none).bind fun t =>
    if t.hh ≤ 23 ∧ t.mi ≤ 59 ∧ t.ss ≤ 59 then some t else Option.none

/-- `datetime.fromisoformat` on the character list of the input string. -/
def fromisoformat (s : String) : Option PyDateTime :=
  match s.toList with
  | y1 :: y2 :: y3 :: y4 :: '-' :: mo1 :: mo2 :: '-' :: d1 :: d2 :: rest =>
      (readNat [y1, y2, y3, y4]).bind fun y =>
        (readNat [mo1, mo2]).bind fun mo =>
          (readNat [d1, d2]).bind fun d =>
            if 1 ≤ y ∧ 1 ≤ mo ∧ mo ≤ 12 ∧ 1 ≤ d ∧ d ≤ daysInMonth y mo then
              match rest with
              | [] => some (PyDateTime.mk y mo d 0 0 0 0 Option.none)
              | _sep :: timecs =>
                  match timecs.findIdx? (fun c => c = '+' || c = '-') with
                  | Option.none =>
                      (parseTimeChars timecs).map fun t =>
                        PyDateTime.mk y mo d t.hh t.mi t.ss t.us Option.none
                  | some i =>
                      (parseTimeChars (timecs.take i)).bind fun t =>
                        let sign : ℤ := if timecs.getD i '+' = '-' then -1 else 1
                        let tzcs := timecs.drop (i + 1)
                        if tzcs.length = 5 ∨ tzcs.length = 8 ∨ tzcs.length = 15 then
                          (parseTimeChars tzcs).map fun z =>
                            PyDateTime.mk y mo d t.hh t.mi t.ss t.us
                              (some (sign * ((z.hh * 3600 + z.mi * 60 + z.ss : ℕ) : ℤ)))
                        else Option.none
            else Option.none
  | _ => Option.none

/-- `ts.replace("Z", "+00:00")`, at character level (the pattern is a
single character, so occurrence-by-occurrence replacement is per-char). -/
def replaceZ : List Char → List Char
  | [] => []
  | c :: cs =>
      if c = 'Z' then '+' :: '0' :: '0' :: ':' :: '0' :: '0' :: replaceZ cs
      else c :: replaceZ cs

/-- `parse_iso8601`: `None` unless the value is a truthy string whose
`Z`-normalized form parses. -/
def parse_iso8601 (v : Val) : Option PyDateTime :=
  if ¬ truthy v then Option.none
  else match v with
    | Val.str s => fromisoformat (String.mk (replaceZ s.toList))
    | _ => Option.none

/-! ### Collector: `extract_fields` (the Observation Normalizer) -/

/-- The exception an attribute access on a non-dict raises
(`'str' object has no attribute 'get'` and friends). -/
inductive PyErr where
  | attributeError : PyErr
deriving DecidableEq, Repr

instance exceptDecEq {ε α : Type} [DecidableEq ε] [DecidableEq α] :
    DecidableEq (Except ε α) := fun x y =>
  match x, y with
  | Except.error a, Except.error b =>
      if h : a = b then Decidable.isTrue (by rw [h])
      else Decidable.isFalse (fun hc => h (Except.error.inj hc))
  | Except.ok a, Except.ok b =>
      if h : a = b then Decidable.isTrue (by rw [h])
      else Decidable.isFalse (fun hc => h (Except.ok.inj hc))
  | Except.error _, Except.ok _ => Decidable.isFalse (fun hc => Except.noConfusion hc)
  | Except.ok _, Except.error _ => Decidable.isFalse (fun hc => Except.noConfusion hc)

/-- The tuple `(vehicle_ref, route_id, direction_id, trip_id, next_stop_id,
recorded_at)` returned by a successful extraction. -/
structure Extracted where
  vehicle_ref : String
  route_id : String
  direction_id : String
  trip_id : String
  next_stop_id : String
  recorded_at : PyDateTime
deriving DecidableEq, Repr

/-- `extract_fields(activity)`.  Attribute accesses `mvj.get(...)`,
`fref.get(...)`, `monitored_call.get(...)` (and `activity.get` itself) raise
`AttributeError` when the receiver is a truthy non-dict, which the `Except`
layer records; `Except.ok Option.none` is Python's silent `return None`. -/
def extract_fields (activity : Val) : Except PyErr (Option Extracted) :=
  match activity with
  | Val.dict aes =>
      let recorded_at := parse_iso8601 (dictGet aes "RecordedAtTime")
      match pyOr (dictGet aes "MonitoredVehicleJourney") (Val.dict []) with
      | Val.dict mes =>
          let vehicle_ref := unwrap (dictGet mes "VehicleRef")
          let route_id := pyOr (unwrap (dictGet mes "LineRef"))
            (pyOr (unwrap (dictGet mes "PublishedLineName")) (Val.str ""))
          let direction_id :=
            match unwrap (dictGet mes "DirectionRef") with
            | Val.none => ""
            | v => pyStr v
          match pyOr (dictGet mes "FramedVehicleJourneyRef") (Val.dict []) with
          | Val.dict fes =>
              let trip_id := pyOr (unwrap (dictGet fes "DatedVehicleJourneyRef")) (Val.str "")
              match pyOr (dictGet mes "MonitoredCall") (Val.dict []) with
              | Val.dict ces =>
                  let next_stop_id := unwrap (dictGet ces "StopPointRef")
                  match recorded_at with
                  | Option.none => Except.ok Option.none
                  | some dt =>
                      if truthy vehicle_ref = false ∨ truthy next_stop_id = false then
                        Except.ok Option.none
                      else
                        Except.ok (some
                          { vehicle_ref := pyStr vehicle_ref
                            route_id := pyStr route_id
                            direction_id := direction_id
                            trip_id := pyStr trip_id
                            next_stop_id := pyStr next_stop_id
                            recorded_at := dt })
              | _ => Except.error PyErr.attributeError
          | _ => Except.error PyErr.attributeError
      | _ => Except.error PyErr.attributeError
  | _ => Except.error PyErr.attributeError

/-! ### Collector: the Segment Tracker (`handle_observation`)

Timestamps.  The tracker compares the observation's parsed (timezone-aware)
datetime with the instant denoted by the ISO text stored in
`vehicle_state.current_stop_first_seen_utc` (written by `utc_iso`, hence
always offset-qualified); both are embedded as exact UTC instants in `ℚ`
seconds.  A missing or unparseable stored string — `load_vehicle_state`
normalizes NULL to `""` and `parse_iso8601` then fails — is
`Option.none`. -/

/-- The `vehicle_state` row for one vehicle, as `load_vehicle_state`
returns it (NULL columns normalized to `""`). -/
structure VehicleState where
  route_id : String
  direction_id : String
  trip_id : String
  current_stop_id : String
  current_stop_first_seen : Option ℚ
deriving DecidableEq, Repr

/-- A normalized observation as `handle_observation` receives it, with
`recorded_at` the UTC instant of the observation's aware datetime. -/
structure TrackedObs where
  vehicle_ref : String
  route_id : String
  direction_id : String
  trip_id : String
  next_stop_id : String
  recorded_at : ℚ
deriving DecidableEq, Repr

/-- An emitted row of the `segments` table (sans `recorded_at_utc`, which is
the wall-clock insertion time and part of no claim). -/
structure Segment where
  route_id : String
  direction_id : String
  vehicle_ref : String
  trip_id : String
  from_stop_id : String
  to_stop_id : String
  depart_at : ℚ
  arrive_at : ℚ
  travel_time_seconds : ℤ
deriving DecidableEq, Repr

/-- Python `int(...)` on a float/rational: truncation toward zero. -/
def pyIntTrunc (q : ℚ) : ℤ :=
  if 0 ≤ q then Int.floor q else Int.ceil q

/-- `handle_observation`: the per-vehicle transition.  Input `prev` is the
loaded state row (`Option.none` when the vehicle has no row); output is the
upserted state together with the emitted segment, if any.  `minSeg`/`maxSeg`
are `MIN_SEGMENT_SECONDS`/`MAX_SEGMENT_SECONDS` (defaults 10 and 3600). -/
def handle_observation (minSeg maxSeg : ℤ) (prev : Option VehicleState)
    (obs : TrackedObs) : VehicleState × Option Segment :=
  match prev with
  | Option.none =>
      (VehicleState.mk obs.route_id obs.direction_id obs.trip_id obs.next_stop_id
        (some obs.recorded_at), Option.none)
  | some p =>
      if p.current_stop_id = "" then
        (VehicleState.mk obs.route_id obs.direction_id obs.trip_id obs.next_stop_id
          (some obs.recorded_at), Option.none)
      else if obs.next_stop_id = p.current_stop_id then
        (VehicleState.mk obs.route_id obs.direction_id obs.trip_id p.current_stop_id
          p.current_stop_first_seen, Option.none)
      else
        match p.current_stop_first_seen with
        | Option.none =>
            (VehicleState.mk obs.route_id obs.direction_id obs.trip_id obs.next_stop_id
              (some obs.recorded_at), Option.none)
        | some t1 =>
            let travel := pyIntTrunc (obs.recorded_at - t1)
            if travel < minSeg ∨ travel > maxSeg then
              (VehicleState.mk obs.route_id obs.direction_id obs.trip_id obs.next_stop_id
                (some obs.recorded_at), Option.none)
            else
              (VehicleState.mk obs.route_id obs.direction_id obs.trip_id obs.next_stop_id
                (some obs.recorded_at),
               some (Segment.mk (pyOrS p.route_id obs.route_id)
                 (pyOrS p.direction_id obs.direction_id) obs.vehicle_ref
                 (pyOrS p.trip_id obs.trip_id) p.current_stop_id obs.next_stop_id
                 t1 obs.recorded_at travel))

/-! ### Concrete sample data for counterexamples and witnesses -/

/-- 2024-01-01 was a Monday; noon UTC, so `day_of_week = 0`, `hour = 12`. -/
def sampleCivil : Civil := Civil.mk 2024 1 1 12 0 0

/-- A raw segment row for the sample group `M5 / 0 / A→B / Mon / 12`. -/
def mkSampleSeg (id : ℤ) (t : ℤ) : SegmentRow :=
  SegmentRow.mk id (some "M5") (some "0") (some "v1") (some "t1") "A" "B"
    sampleCivil sampleCivil (some t)

/-- Two segments with travel times 10 and 20 in the same group. -/
def twoSegs : List SegmentRow := [mkSampleSeg 1 10, mkSampleSeg 2 20]

def sampleKey : GroupKey := GroupKey.mk "M5" "0" "A" "B" 0 12

/-- The working rows `segments_work2 10 1800 twoSegs` evaluates to. -/
def sampleW1 : WorkRow :=
  WorkRow.mk 1 "M5" "0" "v1" "t1" "A" "B" sampleCivil sampleCivil 10 0 12 "Mon-12"

def sampleW2 : WorkRow :=
  WorkRow.mk 2 "M5" "0" "v1" "t1" "A" "B" sampleCivil sampleCivil 20 0 12 "Mon-12"

/-- A tracker state anchored at stop `A`, instant 0. -/
def sampleState : VehicleState := VehicleState.mk "M5" "0" "t1" "A" (some 0)

/-- An observation of the same vehicle heading to `B` at `t = 40.5 s`
(fractional seconds, as ISO-8601 timestamps carry microseconds). -/
def sampleObsHalf : TrackedObs := TrackedObs.mk "v1" "M5" "0" "t1" "B" (81 / 2)

/-- The segment `handle_observation` emits for `sampleState` / `sampleObsHalf`:
truncated travel time 40 over an exact difference of 40.5 s. -/
def sampleSegHalf : Segment := Segment.mk "M5" "0" "v1" "t1" "A" "B" 0 (81 / 2) 40

/-- A raw activity record whose `MonitoredVehicleJourney` is a truthy
non-dict: `mvj.get("VehicleRef")` raises `AttributeError`. -/
def badMvjActivity : Val :=
  Val.dict [("RecordedAtTime", Val.str "2024-01-01T00:00:00Z"),
    ("MonitoredVehicleJourney", Val.str "bogus")]

/-- A well-shaped activity record whose mandatory `VehicleRef` is present
but the empty string. -/
def emptyVehicleActivity : Val :=
  Val.dict [("RecordedAtTime", Val.str "2024-01-01T00:00:00Z"),
    ("MonitoredVehicleJourney", Val.dict [("VehicleRef", Val.str ""),
      ("MonitoredCall", Val.dict [("StopPointRef", Val.str "S1")])])]

/-- Evaluation helper: `⌈q⌉.toNat = k` from the two rational bounds. -/
theorem ceil_toNat_eq {q : ℚ} {k : ℕ} (h1 : (k : ℚ) - 1 < q) (h2 : q ≤ k) :
    (Int.ceil q).toNat = k := by
  have : Int.ceil q = (k : ℤ) := by
    rw [Int.ceil_eq_iff]
    constructor
    · push_cast
      exact h1
    · push_cast
      exact h2
  rw [this]
  exact Int.toNat_natCast k


/-! ### List and ranked-statistics lemmas -/

theorem sortQ_length (l : List ℚ) : (List.insertionSort (· ≤ ·) l).length = l.length :=
  List.length_insertionSort (· ≤ ·) l

theorem sortQ_mem {l : List ℚ} {x : ℚ} : x ∈ List.insertionSort (· ≤ ·) l ↔ x ∈ l :=
  List.mem_insertionSort (· ≤ ·)

theorem sortQ_sorted (l : List ℚ) : List.Sorted (· ≤ ·) (List.insertionSort (· ≤ ·) l) :=
  List.sorted_insertionSort (· ≤ ·) l

theorem getD_mem_of_lt {l : List ℚ} {i : ℕ} (h : i < l.length) : l.getD i 0 ∈ l := by
  rw [List.getD_eq_getElem l 0 h]
  exact List.getElem_mem h

theorem getD_sorted_mono {l : List ℚ} (hl : List.Sorted (· ≤ ·) l) {i j : ℕ}
    (hij : i ≤ j) (hj : j < l.length) : l.getD i 0 ≤ l.getD j 0 := by
  have hi : i < l.length := Nat.lt_of_le_of_lt hij hj
  rw [List.getD_eq_getElem l 0 hi, List.getD_eq_getElem l 0 hj]
  exact hl.rel_get_of_le (a := Fin.mk i hi) (b := Fin.mk j hj) (Fin.mk_le_mk.mpr hij)

theorem getD_nonneg {l : List ℚ} (h : ∀ x ∈ l, 0 ≤ x) (i : ℕ) : 0 ≤ l.getD i 0 := by
  by_cases hi : i < l.length
  · exact h _ (getD_mem_of_lt hi)
  · rw [List.getD_eq_default l 0 (le_of_not_lt hi)]

theorem getD_const {l : List ℚ} {c : ℚ} (h : ∀ x ∈ l, x = c) {i : ℕ}
    (hi : i < l.length) : l.getD i 0 = c :=
  h _ (getD_mem_of_lt hi)

/-- The SQL ranked median is nonnegative on a list of nonnegative values. -/
theorem sqlMedian_nonneg {l : List ℚ} (h : ∀ x ∈ l, 0 ≤ x) : 0 ≤ sqlMedian l := by
  have h' : ∀ x ∈ List.insertionSort (· ≤ ·) l, 0 ≤ x := fun x hx => h x (sortQ_mem.mp hx)
  have h1 := getD_nonneg h' ((l.length + 1) / 2 - 1)
  have h2 := getD_nonneg h' ((l.length + 2) / 2 - 1)
  unfold sqlMedian
  linarith

/-- The SQL ranked median of a constant nonempty list is that constant. -/
theorem sqlMedian_const {l : List ℚ} {c : ℚ} (hne : l ≠ []) (h : ∀ x ∈ l, x = c) :
    sqlMedian l = c := by
  have hn : 1 ≤ l.length := List.length_pos.mpr hne
  have h' : ∀ x ∈ List.insertionSort (· ≤ ·) l, x = c := fun x hx => h x (sortQ_mem.mp hx)
  have len : (List.insertionSort (· ≤ ·) l).length = l.length := sortQ_length l
  have h1 : (l.length + 1) / 2 - 1 < (List.insertionSort (· ≤ ·) l).length := by
    rw [len]; omega
  have h2 : (l.length + 2) / 2 - 1 < (List.insertionSort (· ≤ ·) l).length := by
    rw [len]; omega
  simp only [sqlMedian]
  rw [getD_const h' h1, getD_const h' h2]
  ring

/-- The SQL floor-rank median coincides with the textbook median on every
nonempty list. -/
theorem sqlMedian_eq_stdMedian {l : List ℚ} (hne : l ≠ []) : sqlMedian l = stdMedian l := by
  have hn : 1 ≤ l.length := List.length_pos.mpr hne
  simp only [sqlMedian, stdMedian]
  rcases Nat.even_or_odd l.length with he | ho
  · obtain ⟨k, hk⟩ := he
    have e1 : (l.length + 1) / 2 - 1 = l.length / 2 - 1 := by omega
    have e2 : (l.length + 2) / 2 - 1 = l.length / 2 := by omega
    rw [e1, e2, if_neg (by omega)]
  · obtain ⟨k, hk⟩ := ho
    have e1 : (l.length + 1) / 2 - 1 = l.length / 2 := by omega
    have e2 : (l.length + 2) / 2 - 1 = l.length / 2 := by omega
    rw [e1, e2, if_pos (by omega)]
    ring

/-- Rank bound: the 10th-percentile rank is at least 1. -/
theorem p10Rank_pos {n : ℕ} (h : 1 ≤ n) : 1 ≤ p10Rank n := by
  have hc : (0 : ℤ) < Int.ceil ((n : ℚ) * (10 / 100)) := by
    rw [Int.lt_ceil]
    push_cast
    have : (1 : ℚ) ≤ (n : ℚ) := by exact_mod_cast h
    nlinarith
  unfold p10Rank
  omega

/-- Rank bound: the 10th-percentile rank is at most the lower median rank. -/
theorem p10Rank_le {n : ℕ} (h : 1 ≤ n) : p10Rank n ≤ (n + 1) / 2 := by
  unfold p10Rank
  set r := (n + 1) / 2 with hrdef
  have hnr : n ≤ 2 * r := by omega
  have hc : Int.ceil ((n : ℚ) * (10 / 100)) ≤ (r : ℤ) := by
    rw [Int.ceil_le, Int.cast_natCast]
    have hrq : (n : ℚ) ≤ 2 * (r : ℚ) := by exact_mod_cast hnr
    have h0 : (0 : ℚ) ≤ (r : ℚ) := Nat.cast_nonneg r
    linarith
  omega

/-- Rank bound: the 90th-percentile rank is at least the upper median rank. -/
theorem p90Rank_ge {n : ℕ} (h : 1 ≤ n) : (n + 2) / 2 ≤ p90Rank n := by
  unfold p90Rank
  set r := (n + 2) / 2 with hrdef
  have hnr : 2 * r ≤ n + 2 := by omega
  have hc : (r : ℤ) - 1 < Int.ceil ((n : ℚ) * (90 / 100)) := by
    rw [Int.lt_ceil]
    push_cast
    have hrq : 2 * (r : ℚ) ≤ (n : ℚ) + 2 := by exact_mod_cast hnr
    have h1 : (1 : ℚ) ≤ (n : ℚ) := by exact_mod_cast h
    linarith
  omega

/-- Rank bound: the 90th-percentile rank is at most `n`. -/
theorem p90Rank_le {n : ℕ} (h : 1 ≤ n) : p90Rank n ≤ n := by
  have hc : Int.ceil ((n : ℚ) * (90 / 100)) ≤ (n : ℤ) := by
    rw [Int.ceil_le]
    push_cast
    have h0 : (0 : ℚ) ≤ (n : ℚ) := Nat.cast_nonneg n
    linarith
  unfold p90Rank
  omega

/-! ### Group membership machinery -/

theorem mem_stats_cases {minS maxS : ℤ} {segs : List SegmentRow} {st : StatsRow}
    (h : st ∈ segment_stats minS maxS segs) :
    ∃ k, k ∈ ((segments_work2 minS maxS segs).map keyOf).dedup ∧
      st = statsOfKey minS maxS segs k := by
  simp only [segment_stats, List.mem_map] at h
  obtain ⟨k, hk, he⟩ := h
  exact ⟨k, hk, he.symm⟩

theorem groupVals_self_mem {rows : List WorkRow} {w : WorkRow} (hw : w ∈ rows) :
    ((w.x : ℚ)) ∈ groupVals rows (keyOf w) := by
  unfold groupVals
  apply List.mem_map_of_mem
  rw [List.mem_filter]
  exact ⟨hw, by simp⟩

theorem groupVals_ne_nil {rows : List WorkRow} {k : GroupKey}
    (h : k ∈ (rows.map keyOf).dedup) : groupVals rows k ≠ [] := by
  rw [List.mem_dedup, List.mem_map] at h
  obtain ⟨w, hw, hk⟩ := h
  subst hk
  intro hnil
  have hmem := groupVals_self_mem hw
  rw [hnil] at hmem
  exact List.not_mem_nil _ hmem

theorem find?_groupStats_map (gv : GroupKey → List ℚ) :
    ∀ (d : List GroupKey) (k : GroupKey), k ∈ d →
      ((d.map fun k2 => groupStats k2 (gv k2)).find? fun st => decide (st.key = k)) =
        some (groupStats k (gv k))
  | [], k, hk => absurd hk (List.not_mem_nil k)
  | k2 :: d, k, hk => by
      rw [List.map_cons]
      by_cases he : k2 = k
      · subst he
        rw [List.find?_cons_of_pos]
        simp [groupStats]
      · rw [List.find?_cons_of_neg]
        · have hd : k ∈ d := by
            rcases List.mem_cons.mp hk with h1 | h1
            · exact absurd h1.symm he
            · exact h1
          exact find?_groupStats_map gv d k hd
        · simp [groupStats, he]

theorem find?_segment_stats {minS maxS : ℤ} {segs : List SegmentRow} {k : GroupKey}
    (h : k ∈ ((segments_work2 minS maxS segs).map keyOf).dedup) :
    (segment_stats minS maxS segs).find? (fun st => decide (st.key = k)) =
      some (statsOfKey minS maxS segs k) := by
  simp only [segment_stats]
  exact find?_groupStats_map _ _ _ h

theorem statsOfKey_mad {minS maxS : ℤ} {segs : List SegmentRow} {k : GroupKey}
    (h : valsOfKey minS maxS segs k ≠ []) :
    (statsOfKey minS maxS segs k).mad_seconds =
      some (sqlMedian ((valsOfKey minS maxS segs k).map
        fun x => |x - sqlMedian (valsOfKey minS maxS segs k)|)) := by
  have hn : (valsOfKey minS maxS segs k).length ≠ 0 :=
    fun h0 => h (List.length_eq_zero.mp h0)
  show (if (valsOfKey minS maxS segs k).length = 0 then Option.none else _) = _
  rw [if_neg hn]

/-- `isOutlierFlag` with a known MAD value. -/
theorem isOutlierFlag_some {cutoff x : ℚ} {st : StatsRow} {m : ℚ}
    (hm : st.mad_seconds = some m) :
    isOutlierFlag cutoff x st =
      if m = 0 then false
      else decide (|(6745 / 10000 : ℚ) * (x - st.median_seconds) / m| > cutoff) := by
  unfold isOutlierFlag
  rw [hm]

/-! ### Evaluation of the sample segment set -/

theorem twoSegs_work2 : segments_work2 10 1800 twoSegs = [sampleW1, sampleW2] := by decide

theorem twoSegs_dedup : ([keyOf sampleW1, keyOf sampleW2]).dedup = [sampleKey] := by decide

theorem twoSegs_vals : groupVals [sampleW1, sampleW2] sampleKey = [(10 : ℚ), 20] := by
  norm_num [groupVals, sampleW1, sampleW2, keyOf, sampleKey]

theorem twoSegs_valsOfKey : valsOfKey 10 1800 twoSegs sampleKey = [(10 : ℚ), 20] := by
  rw [valsOfKey, twoSegs_work2, twoSegs_vals]

theorem twoSegs_stats :
    segment_stats 10 1800 twoSegs = [groupStats sampleKey [(10 : ℚ), 20]] := by
  simp only [segment_stats, twoSegs_work2, twoSegs_dedup, List.map_cons, List.map_nil,
    twoSegs_vals]

theorem twoSegs_statsOfKey :
    statsOfKey 10 1800 twoSegs sampleKey = groupStats sampleKey [(10 : ℚ), 20] := by
  rw [statsOfKey, twoSegs_valsOfKey]

/-! ### Claims C1, C8, C10 (aggregator) -/

/-- Claim C1, counterexample: for the group `{10, 20}` (`n = 2`) the
aggregator's median is 15 — the standard median, selected by the SQL
integer-division ranks `(n+1)/2 = 1` and `(n+2)/2 = 2` — whereas the rank
formula of the claim, `⌈(n+1)/2⌉ = ⌈(n+2)/2⌉ = 2` with `⌈·⌉` the real
ceiling, selects the single value 20. -/
theorem aggregator_median_ceiling_rank_cex :
    (segment_stats 10 1800 twoSegs).map (fun st => st.median_seconds) = [15] ∧
    specCeilRankMedian (valsOfKey 10 1800 twoSegs sampleKey) = 20 ∧
    (15 : ℚ) ≠ 20 := by
  refine ⟨?_, ?_, by norm_num⟩
  · rw [twoSegs_stats]
    norm_num [groupStats, sqlMedian, List.insertionSort, List.orderedInsert]
  · rw [twoSegs_valsOfKey]
    have h1 : (Int.ceil ((3 : ℚ) / 2)).toNat = 2 := ceil_toNat_eq (by norm_num) (by norm_num)
    have h2 : Int.toNat 2 = 2 := rfl
    norm_num [specCeilRankMedian, List.insertionSort, List.orderedInsert, List.range_succ,
      h1, h2]

/-- Claim C1 (amended): for every group of `n ≥ 1` bounds-filtered segments
ranked ascending by `travel_time_seconds`, the aggregator's median is the
average of the value(s) at the integer-division ranks `(n+1)/2` and
`(n+2)/2` (i.e. `⌊(n+1)/2⌋` and `⌊(n+2)/2⌋`, as the SQL computes them) —
which equals the standard median — and its MAD is the median, by the same
ranking rule, of `|x − median|` over the group — which equals the standard
MAD — for both odd and even `n`. -/
theorem aggregator_median_mad_standard (minS maxS : ℤ) (segs : List SegmentRow)
    (st : StatsRow) (h : st ∈ segment_stats minS maxS segs) :
    st.median_seconds = sqlMedian (valsOfKey minS maxS segs st.key) ∧
    st.median_seconds = stdMedian (valsOfKey minS maxS segs st.key) ∧
    st.mad_seconds = some (stdMAD (valsOfKey minS maxS segs st.key)) := by
  obtain ⟨k, hk, he⟩ := mem_stats_cases h
  subst he
  have hkey : (statsOfKey minS maxS segs k).key = k := rfl
  rw [hkey]
  have hne : valsOfKey minS maxS segs k ≠ [] := groupVals_ne_nil hk
  set g := valsOfKey minS maxS segs k with hg
  refine ⟨rfl, sqlMedian_eq_stdMedian hne, ?_⟩
  rw [statsOfKey_mad hne]
  have hdev : (g.map fun x => |x - sqlMedian g|) = (g.map fun x => |x - stdMedian g|) := by
    rw [sqlMedian_eq_stdMedian hne]
  have hdne : (g.map fun x => |x - stdMedian g|) ≠ [] := by
    intro h0
    exact hne (List.map_eq_nil_iff.mp h0)
  rw [hdev, sqlMedian_eq_stdMedian hdne]
  rfl

/-- Claim C1, witness: the group `{10, 20}` of `twoSegs` has median 15 and
MAD 5, matching the standard median and MAD. -/
theorem aggregator_median_mad_standard_witness :
    (groupStats sampleKey [(10 : ℚ), 20]).median_seconds =
      sqlMedian (valsOfKey 10 1800 twoSegs (groupStats sampleKey [(10 : ℚ), 20]).key) ∧
    (groupStats sampleKey [(10 : ℚ), 20]).median_seconds =
      stdMedian (valsOfKey 10 1800 twoSegs (groupStats sampleKey [(10 : ℚ), 20]).key) ∧
    (groupStats sampleKey [(10 : ℚ), 20]).mad_seconds =
      some (stdMAD (valsOfKey 10 1800 twoSegs (groupStats sampleKey [(10 : ℚ), 20]).key)) :=
  aggregator_median_mad_standard 10 1800 twoSegs (groupStats sampleKey [(10 : ℚ), 20])
    (by rw [twoSegs_stats]; exact List.mem_singleton.mpr rfl)

/-- Claim C8: `build_clean_and_stats` reads only the raw `segments` table and
fully replaces `segment_stats` and `segments_clean`, so a second run on the
unchanged segment set reproduces the first run's output tables exactly. -/
theorem rebuild_idempotent (minS maxS : ℤ) (cutoff : ℚ) (db : DBState) :
    build_clean_and_stats minS maxS cutoff (build_clean_and_stats minS maxS cutoff db) =
      build_clean_and_stats minS maxS cutoff db := rfl

/-- Claim C10: every `segment_stats` row has `sample_count ≥ 1`, a present
nonnegative `mad_seconds`, and present percentiles with
`p10_seconds ≤ median_seconds ≤ p90_seconds`. -/
theorem stats_row_invariants (minS maxS : ℤ) (segs : List SegmentRow)
    (st : StatsRow) (h : st ∈ segment_stats minS maxS segs) :
    1 ≤ st.sample_count ∧
    st.mad_seconds ≠ Option.none ∧
    0 ≤ st.mad_seconds.getD 0 ∧
    st.p10_seconds ≠ Option.none ∧
    st.p90_seconds ≠ Option.none ∧
    st.p10_seconds.getD 0 ≤ st.median_seconds ∧
    st.median_seconds ≤ st.p90_seconds.getD 0 := by
  obtain ⟨k, hk, he⟩ := mem_stats_cases h
  subst he
  have hne : valsOfKey minS maxS segs k ≠ [] := groupVals_ne_nil hk
  have hmad := statsOfKey_mad hne
  set g := valsOfKey minS maxS segs k with hg
  have hn : 1 ≤ g.length := List.length_pos.mpr hne
  have hmadnn : 0 ≤ sqlMedian (g.map fun x => |x - sqlMedian g|) := by
    apply sqlMedian_nonneg
    intro x hx
    obtain ⟨y, hy, hxy⟩ := List.mem_map.mp hx
    rw [← hxy]
    exact abs_nonneg _
  have hp10r1 : 1 ≤ p10Rank g.length := p10Rank_pos hn
  have hp10r2 : p10Rank g.length ≤ (g.length + 1) / 2 := p10Rank_le hn
  have hp90r1 : (g.length + 2) / 2 ≤ p90Rank g.length := p90Rank_ge hn
  have hp90r2 : p90Rank g.length ≤ g.length := p90Rank_le hn
  have hp10 : (statsOfKey minS maxS segs k).p10_seconds =
      some ((List.insertionSort (· ≤ ·) g).getD (p10Rank g.length - 1) 0) := by
    show sqlRankValue g (p10Rank g.length) = _
    unfold sqlRankValue
    rw [if_pos ⟨hp10r1, by omega⟩]
  have hp90 : (statsOfKey minS maxS segs k).p90_seconds =
      some ((List.insertionSort (· ≤ ·) g).getD (p90Rank g.length - 1) 0) := by
    show sqlRankValue g (p90Rank g.length) = _
    unfold sqlRankValue
    rw [if_pos ⟨by omega, hp90r2⟩]
  have hslen : (List.insertionSort (· ≤ ·) g).length = g.length := sortQ_length g
  have hsorted := sortQ_sorted g
  have m1 : (List.insertionSort (· ≤ ·) g).getD (p10Rank g.length - 1) 0 ≤
      (List.insertionSort (· ≤ ·) g).getD ((g.length + 1) / 2 - 1) 0 :=
    getD_sorted_mono hsorted (by omega) (by rw [hslen]; omega)
  have m2 : (List.insertionSort (· ≤ ·) g).getD ((g.length + 1) / 2 - 1) 0 ≤
      (List.insertionSort (· ≤ ·) g).getD ((g.length + 2) / 2 - 1) 0 :=
    getD_sorted_mono hsorted (by omega) (by rw [hslen]; omega)
  have m3 : (List.insertionSort (· ≤ ·) g).getD ((g.length + 2) / 2 - 1) 0 ≤
      (List.insertionSort (· ≤ ·) g).getD (p90Rank g.length - 1) 0 :=
    getD_sorted_mono hsorted (by omega) (by rw [hslen]; omega)
  have hmed : (statsOfKey minS maxS segs k).median_seconds =
      ((List.insertionSort (· ≤ ·) g).getD ((g.length + 1) / 2 - 1) 0 +
        (List.insertionSort (· ≤ ·) g).getD ((g.length + 2) / 2 - 1) 0) / 2 := rfl
  refine ⟨hn, ?_, ?_, ?_, ?_, ?_, ?_⟩
  · rw [hmad]
    exact Option.some_ne_none _
  · rw [hmad, Option.getD_some]
    exact hmadnn
  · rw [hp10]
    exact Option.some_ne_none _
  · rw [hp90]
    exact Option.some_ne_none _
  · rw [hp10, Option.getD_some, hmed]
    linarith
  · rw [hp90, Option.getD_some, hmed]
    linarith

/-- Claim C10, witness: the stats row of the sample group `{10, 20}`. -/
theorem stats_row_invariants_witness :
    1 ≤ (groupStats sampleKey [(10 : ℚ), 20]).sample_count ∧
    (groupStats sampleKey [(10 : ℚ), 20]).mad_seconds ≠ Option.none ∧
    0 ≤ (groupStats sampleKey [(10 : ℚ), 20]).mad_seconds.getD 0 ∧
    (groupStats sampleKey [(10 : ℚ), 20]).p10_seconds ≠ Option.none ∧
    (groupStats sampleKey [(10 : ℚ), 20]).p90_seconds ≠ Option.none ∧
    (groupStats sampleKey [(10 : ℚ), 20]).p10_seconds.getD 0 ≤
      (groupStats sampleKey [(10 : ℚ), 20]).median_seconds ∧
    (groupStats sampleKey [(10 : ℚ), 20]).median_seconds ≤
      (groupStats sampleKey [(10 : ℚ), 20]).p90_seconds.getD 0 :=
  stats_row_invariants 10 1800 twoSegs (groupStats sampleKey [(10 : ℚ), 20])
    (by rw [twoSegs_stats]; exact List.mem_singleton.mpr rfl)

/-! ### Claim C3 (outlier classifier) -/

/-- Claim C3: every bounds-filtered segment joins exactly its group's stats
row and yields one `segments_clean` row; its MAD is present (the ranked
median of `|x − median|`); a zero (or absent, via `getD`) MAD forces
`is_outlier = false`; otherwise `is_outlier` is true iff
`|0.6745·(x − median)/mad| > cutoff`; and an all-identical group has
`mad = 0`, hence no flagged outlier regardless of the cutoff. -/
theorem outlier_flag_characterization (minS maxS : ℤ) (cutoff : ℚ)
    (segs : List SegmentRow) (w : WorkRow)
    (h : w ∈ segments_work2 minS maxS segs) :
    (segment_stats minS maxS segs).find? (fun st => decide (st.key = keyOf w)) =
        some (statsOfKey minS maxS segs (keyOf w)) ∧
    (statsOfKey minS maxS segs (keyOf w)).mad_seconds =
        some (sqlMedian ((valsOfKey minS maxS segs (keyOf w)).map
          fun x => |x - sqlMedian (valsOfKey minS maxS segs (keyOf w))|)) ∧
    cleanRowOf cutoff w (statsOfKey minS maxS segs (keyOf w)) ∈
        segments_clean minS maxS cutoff segs ∧
    ((statsOfKey minS maxS segs (keyOf w)).mad_seconds.getD 0 = 0 →
      (cleanRowOf cutoff w (statsOfKey minS maxS segs (keyOf w))).is_outlier = false) ∧
    ((statsOfKey minS maxS segs (keyOf w)).mad_seconds.getD 0 ≠ 0 →
      ((cleanRowOf cutoff w (statsOfKey minS maxS segs (keyOf w))).is_outlier = true ↔
        |(6745 / 10000 : ℚ) *
            ((w.x : ℚ) - (statsOfKey minS maxS segs (keyOf w)).median_seconds) /
          (statsOfKey minS maxS segs (keyOf w)).mad_seconds.getD 0| > cutoff)) ∧
    ((valsOfKey minS maxS segs (keyOf w)).all (fun x => decide (x = (w.x : ℚ))) = true →
      (statsOfKey minS maxS segs (keyOf w)).mad_seconds = some 0 ∧
      (cleanRowOf cutoff w (statsOfKey minS maxS segs (keyOf w))).is_outlier = false) := by
  have hkmem : keyOf w ∈ ((segments_work2 minS maxS segs).map keyOf).dedup := by
    rw [List.mem_dedup]
    exact List.mem_map_of_mem keyOf h
  have hfind := find?_segment_stats hkmem
  have hne : valsOfKey minS maxS segs (keyOf w) ≠ [] := groupVals_ne_nil hkmem
  have hmad := statsOfKey_mad hne
  have hflag : (cleanRowOf cutoff w (statsOfKey minS maxS segs (keyOf w))).is_outlier =
      isOutlierFlag cutoff (w.x : ℚ) (statsOfKey minS maxS segs (keyOf w)) := rfl
  refine ⟨hfind, hmad, ?_, ?_, ?_, ?_⟩
  · simp only [segments_clean]
    rw [List.mem_filterMap]
    refine ⟨w, h, ?_⟩
    rw [hfind]
    rfl
  · intro h0
    rw [hmad, Option.getD_some] at h0
    rw [hflag, isOutlierFlag_some hmad, if_pos h0]
  · intro h0
    rw [hmad, Option.getD_some] at h0
    rw [hflag, isOutlierFlag_some hmad, if_neg h0, hmad, Option.getD_some]
    exact decide_eq_true_iff
  · intro hall
    have hconst : ∀ x ∈ valsOfKey minS maxS segs (keyOf w), x = (w.x : ℚ) := by
      intro x hx
      exact of_decide_eq_true (List.all_eq_true.mp hall x hx)
    have hmedw : sqlMedian (valsOfKey minS maxS segs (keyOf w)) = (w.x : ℚ) :=
      sqlMedian_const hne hconst
    have hdev0 : ∀ y ∈ (valsOfKey minS maxS segs (keyOf w)).map
        (fun x => |x - sqlMedian (valsOfKey minS maxS segs (keyOf w))|), y = 0 := by
      intro y hy
      obtain ⟨x, hx, hxy⟩ := List.mem_map.mp hy
      rw [← hxy, hmedw, hconst x hx, sub_self, abs_zero]
    have hdne : (valsOfKey minS maxS segs (keyOf w)).map
        (fun x => |x - sqlMedian (valsOfKey minS maxS segs (keyOf w))|) ≠ [] := by
      intro h0
      exact hne (List.map_eq_nil_iff.mp h0)
    have hmad0 : (statsOfKey minS maxS segs (keyOf w)).mad_seconds = some 0 := by
      rw [hmad, sqlMedian_const hdne hdev0]
    refine ⟨hmad0, ?_⟩
    rw [hflag, isOutlierFlag_some hmad0, if_pos rfl]

/-- Claim C3, witness: the first sample working row, in the group `{10, 20}`
with MAD 5 and cutoff 6. -/
theorem outlier_flag_characterization_witness :
    (segment_stats 10 1800 twoSegs).find? (fun st => decide (st.key = keyOf sampleW1)) =
        some (statsOfKey 10 1800 twoSegs (keyOf sampleW1)) ∧
    (statsOfKey 10 1800 twoSegs (keyOf sampleW1)).mad_seconds =
        some (sqlMedian ((valsOfKey 10 1800 twoSegs (keyOf sampleW1)).map
          fun x => |x - sqlMedian (valsOfKey 10 1800 twoSegs (keyOf sampleW1))|)) ∧
    cleanRowOf 6 sampleW1 (statsOfKey 10 1800 twoSegs (keyOf sampleW1)) ∈
        segments_clean 10 1800 6 twoSegs ∧
    ((statsOfKey 10 1800 twoSegs (keyOf sampleW1)).mad_seconds.getD 0 = 0 →
      (cleanRowOf 6 sampleW1 (statsOfKey 10 1800 twoSegs (keyOf sampleW1))).is_outlier =
        false) ∧
    ((statsOfKey 10 1800 twoSegs (keyOf sampleW1)).mad_seconds.getD 0 ≠ 0 →
      ((cleanRowOf 6 sampleW1 (statsOfKey 10 1800 twoSegs (keyOf sampleW1))).is_outlier =
          true ↔
        |(6745 / 10000 : ℚ) *
            ((sampleW1.x : ℚ) - (statsOfKey 10 1800 twoSegs (keyOf sampleW1)).median_seconds) /
          (statsOfKey 10 1800 twoSegs (keyOf sampleW1)).mad_seconds.getD 0| > 6)) ∧
    ((valsOfKey 10 1800 twoSegs (keyOf sampleW1)).all
        (fun x => decide (x = (sampleW1.x : ℚ))) = true →
      (statsOfKey 10 1800 twoSegs (keyOf sampleW1)).mad_seconds = some 0 ∧
      (cleanRowOf 6 sampleW1 (statsOfKey 10 1800 twoSegs (keyOf sampleW1))).is_outlier =
        false) :=
  outlier_flag_characterization 10 1800 6 twoSegs sampleW1
    (by rw [twoSegs_work2]; simp)

/-! ### Tracker lemmas -/

/-- If the truncated difference is at least 1, the difference is
nonnegative. -/
theorem diff_nonneg_of_pyIntTrunc {q : ℚ} {m : ℤ} (h1 : 1 ≤ m) (h2 : m ≤ pyIntTrunc q) :
    0 ≤ q := by
  by_contra hq
  push_neg at hq
  have he : pyIntTrunc q = Int.ceil q := by
    unfold pyIntTrunc
    rw [if_neg (not_le.mpr hq)]
  rw [he] at h2
  have hc : Int.ceil q ≤ 0 := Int.ceil_le.mpr (by exact_mod_cast le_of_lt hq)
  omega

/-! ### Claims C2, C4, C5, C6 (segment tracker) -/

/-- Claim C2, counterexample: with the anchor at instant 0 and an
observation at 40.5 s, the emitted segment has `travel_time_seconds = 40`
(`int(total_seconds())` truncates) while `arrive_at - depart_at = 40.5`, so
the exact equality of the claim fails. -/
theorem segment_travel_truncation_cex :
    handle_observation 10 3600 (some sampleState) sampleObsHalf =
      (VehicleState.mk "M5" "0" "t1" "B" (some (81 / 2)), some sampleSegHalf) ∧
    ((sampleSegHalf.travel_time_seconds : ℚ) ≠
      sampleSegHalf.arrive_at - sampleSegHalf.depart_at) := by
  constructor
  · norm_num [handle_observation, sampleState, sampleObsHalf, sampleSegHalf, pyIntTrunc, pyOrS]
    rfl
  · norm_num [sampleSegHalf]

/-- Claim C2 (amended): every emitted segment satisfies, at creation time:
`travel_time_seconds` equals the difference `arrive_at - depart_at` in
seconds truncated toward zero (Python `int(total_seconds())`; equal to the
exact difference whenever the instants differ by a whole number of
seconds), `depart_at ≤ arrive_at`, and `MIN_SEGMENT_SECONDS ≤
travel_time_seconds ≤ MAX_SEGMENT_SECONDS` — provided the configured
minimum is at least 1 s (default 10 s). -/
theorem emitted_segment_invariants (minSeg maxSeg : ℤ) (prev : Option VehicleState)
    (obs : TrackedObs) (st : VehicleState) (seg : Segment)
    (hmin : 1 ≤ minSeg)
    (h : handle_observation minSeg maxSeg prev obs = (st, some seg)) :
    seg.travel_time_seconds = pyIntTrunc (seg.arrive_at - seg.depart_at) ∧
    seg.depart_at ≤ seg.arrive_at ∧
    minSeg ≤ seg.travel_time_seconds ∧ seg.travel_time_seconds ≤ maxSeg := by
  cases prev with
  | none => simp [handle_observation] at h
  | some p =>
    by_cases hstop : p.current_stop_id = ""
    · simp [handle_observation, hstop] at h
    · by_cases hsame : obs.next_stop_id = p.current_stop_id
      · simp [handle_observation, hstop, hsame] at h
      · cases hfs : p.current_stop_first_seen with
        | none => simp [handle_observation, hstop, hsame, hfs] at h
        | some t1 =>
          by_cases hb : pyIntTrunc (obs.recorded_at - t1) < minSeg ∨
              pyIntTrunc (obs.recorded_at - t1) > maxSeg
          · simp [handle_observation, hstop, hsame, hfs, hb] at h
          · push_neg at hb
            obtain ⟨hb1, hb2⟩ := hb
            have hcond : ¬(pyIntTrunc (obs.recorded_at - t1) < minSeg ∨
                pyIntTrunc (obs.recorded_at - t1) > maxSeg) := by omega
            have hEq : handle_observation minSeg maxSeg (some p) obs =
                (VehicleState.mk obs.route_id obs.direction_id obs.trip_id obs.next_stop_id
                  (some obs.recorded_at),
                 some (Segment.mk (pyOrS p.route_id obs.route_id)
                   (pyOrS p.direction_id obs.direction_id) obs.vehicle_ref
                   (pyOrS p.trip_id obs.trip_id) p.current_stop_id obs.next_stop_id t1
                   obs.recorded_at (pyIntTrunc (obs.recorded_at - t1)))) := by
              simp [handle_observation, hstop, hsame, hfs, hcond]
            rw [hEq] at h
            obtain ⟨hst, hseg⟩ := Prod.mk.injEq .. |>.mp h
            obtain rfl := (Option.some.inj hseg).symm
            refine ⟨rfl, ?_, hb1, hb2⟩
            have h1t : (1 : ℤ) ≤ pyIntTrunc (obs.recorded_at - t1) := le_trans hmin hb1
            have h0 : (0 : ℚ) ≤ obs.recorded_at - t1 :=
              diff_nonneg_of_pyIntTrunc (le_refl 1) h1t
            show t1 ≤ obs.recorded_at
            linarith

/-- Claim C2, witness: the segment emitted at 40.5 s has truncated travel
time 40, nonnegative span and in-bounds duration. -/
theorem emitted_segment_invariants_witness :
    sampleSegHalf.travel_time_seconds =
      pyIntTrunc (sampleSegHalf.arrive_at - sampleSegHalf.depart_at) ∧
    sampleSegHalf.depart_at ≤ sampleSegHalf.arrive_at ∧
    10 ≤ sampleSegHalf.travel_time_seconds ∧ sampleSegHalf.travel_time_seconds ≤ 3600 :=
  emitted_segment_invariants 10 3600 (some sampleState) sampleObsHalf
    (VehicleState.mk "M5" "0" "t1" "B" (some (81 / 2))) sampleSegHalf (by norm_num)
    (by norm_num [handle_observation, sampleState, sampleObsHalf, sampleSegHalf, pyIntTrunc,
      pyOrS]
        rfl)

/-- Claim C4: an observation whose next stop equals the tracked stop
refreshes the route/direction/trip metadata, keeps the anchor timestamp
`current_stop_first_seen` unchanged, and emits no segment. -/
theorem same_stop_refresh (minSeg maxSeg : ℤ) (p : VehicleState) (obs : TrackedObs)
    (hstop : p.current_stop_id ≠ "") (hsame : obs.next_stop_id = p.current_stop_id) :
    handle_observation minSeg maxSeg (some p) obs =
      (VehicleState.mk obs.route_id obs.direction_id obs.trip_id p.current_stop_id
        p.current_stop_first_seen, Option.none) := by
  simp [handle_observation, hstop, hsame]

/-- Claim C4, witness: a refresh at the same stop `A` keeps the anchor 5 and
adopts the new metadata without emitting. -/
theorem same_stop_refresh_witness :
    handle_observation 10 3600 (some (VehicleState.mk "r" "d" "t" "A" (some 5)))
      (TrackedObs.mk "v" "r2" "d2" "t2" "A" 70) =
      (VehicleState.mk "r2" "d2" "t2" "A" (some 5), Option.none) :=
  same_stop_refresh 10 3600 (VehicleState.mk "r" "d" "t" "A" (some 5))
    (TrackedObs.mk "v" "r2" "d2" "t2" "A" 70) (by decide) (by decide)

/-- Claim C5: a stop change whose truncated travel time lies outside
`[MIN_SEGMENT_SECONDS, MAX_SEGMENT_SECONDS]` emits no segment but still
resynchronizes the state to `TRACKING(S2, T2)`. -/
theorem out_of_bounds_resync (minSeg maxSeg : ℤ) (p : VehicleState) (obs : TrackedObs)
    (t1 : ℚ) (hstop : p.current_stop_id ≠ "")
    (hdiff : obs.next_stop_id ≠ p.current_stop_id)
    (hfs : p.current_stop_first_seen = some t1)
    (hb : pyIntTrunc (obs.recorded_at - t1) < minSeg ∨
      pyIntTrunc (obs.recorded_at - t1) > maxSeg) :
    handle_observation minSeg maxSeg (some p) obs =
      (VehicleState.mk obs.route_id obs.direction_id obs.trip_id obs.next_stop_id
        (some obs.recorded_at), Option.none) := by
  simp [handle_observation, hstop, hdiff, hfs, hb]

/-- Claim C5, witness: stop `A` at 0 s, stop `B` at 2 s — travel 2 s is
below the 10 s minimum; no segment, state resets to `TRACKING(B, 2)`. -/
theorem out_of_bounds_resync_witness :
    handle_observation 10 3600 (some (VehicleState.mk "r" "d" "t" "A" (some 0)))
      (TrackedObs.mk "v" "r" "d" "t" "B" 2) =
      (VehicleState.mk "r" "d" "t" "B" (some 2), Option.none) :=
  out_of_bounds_resync 10 3600 (VehicleState.mk "r" "d" "t" "A" (some 0))
    (TrackedObs.mk "v" "r" "d" "t" "B" 2) 0 (by decide) (by decide) rfl
    (Or.inl (by norm_num [pyIntTrunc]))

/-- Claim C6: a stop change from a state whose anchor timestamp is missing
or unparseable resets the state to `TRACKING(S2, T2)` and emits nothing. -/
theorem corrupted_anchor_resets (minSeg maxSeg : ℤ) (p : VehicleState) (obs : TrackedObs)
    (hstop : p.current_stop_id ≠ "") (hdiff : obs.next_stop_id ≠ p.current_stop_id)
    (hfs : p.current_stop_first_seen = Option.none) :
    handle_observation minSeg maxSeg (some p) obs =
      (VehicleState.mk obs.route_id obs.direction_id obs.trip_id obs.next_stop_id
        (some obs.recorded_at), Option.none) := by
  simp [handle_observation, hstop, hdiff, hfs]

/-- Claim C6, witness: broken anchor, stop change `A → B` at 100 s — reset,
no emission. -/
theorem corrupted_anchor_resets_witness :
    handle_observation 10 3600 (some (VehicleState.mk "r" "d" "t" "A" Option.none))
      (TrackedObs.mk "v" "r" "d" "t" "B" 100) =
      (VehicleState.mk "r" "d" "t" "B" (some 100), Option.none) :=
  corrupted_anchor_resets 10 3600 (VehicleState.mk "r" "d" "t" "A" Option.none)
    (TrackedObs.mk "v" "r" "d" "t" "B" 100) (by decide) (by decide) rfl

/-! ### Claims C7 and C9 (observation normalizer) -/

/-- Claim C7 (code bug): a record whose `MonitoredVehicleJourney` is a
truthy non-dict makes `extract_fields` raise `AttributeError` instead of
rejecting silently — and the call sits outside the per-record
`try`/`except` of the ingestion loop. -/
theorem extract_fields_raises_on_nondict_mvj :
    extract_fields badMvjActivity = Except.error PyErr.attributeError := by decide

/-- Claim C9: on any well-shaped record, a mandatory field that normalizes
to a falsy scalar — `unwrap`ed `VehicleRef` or `StopPointRef`, or a falsy
`RecordedAtTime` — causes silent rejection (`return None`). -/
theorem falsy_mandatory_field_rejected (aes mes fes ces : List (String × Val))
    (hmvj : pyOr (dictGet aes "MonitoredVehicleJourney") (Val.dict []) = Val.dict mes)
    (hfref : pyOr (dictGet mes "FramedVehicleJourneyRef") (Val.dict []) = Val.dict fes)
    (hmc : pyOr (dictGet mes "MonitoredCall") (Val.dict []) = Val.dict ces)
    (hfalsy : truthy (unwrap (dictGet mes "VehicleRef")) = false ∨
      truthy (unwrap (dictGet ces "StopPointRef")) = false ∨
      truthy (dictGet aes "RecordedAtTime") = false) :
    extract_fields (Val.dict aes) = Except.ok Option.none := by
  simp only [extract_fields, hmvj, hfref, hmc]
  rcases hfalsy with hf | hf | hf
  · cases hp : parse_iso8601 (dictGet aes "RecordedAtTime") with
    | none => rfl
    | some dt => simp [hf]
  · cases hp : parse_iso8601 (dictGet aes "RecordedAtTime") with
    | none => rfl
    | some dt => simp [hf]
  · have hpar : parse_iso8601 (dictGet aes "RecordedAtTime") = Option.none := by
      unfold parse_iso8601
      rw [hf]
      simp
    rw [hpar]

/-- Claim C9, witness: a record with `VehicleRef` present but equal to the
empty string is rejected. -/
theorem falsy_mandatory_field_rejected_witness :
    extract_fields emptyVehicleActivity = Except.ok Option.none :=
  falsy_mandatory_field_rejected
    [("RecordedAtTime", Val.str "2024-01-01T00:00:00Z"),
      ("MonitoredVehicleJourney", Val.dict [("VehicleRef", Val.str ""),
        ("MonitoredCall", Val.dict [("StopPointRef", Val.str "S1")])])]
    [("VehicleRef", Val.str ""), ("MonitoredCall", Val.dict [("StopPointRef", Val.str "S1")])]
    [] [("StopPointRef", Val.str "S1")] rfl rfl rfl (Or.inl rfl)

end MetroMind
